import Mathlib

/- Verification of the quota exporter (src/quota-export.py) against its
specification.  The Python source is shallowly embedded: YAML/Python values
become the inductive `Value`, dictionary subscripting and the `in` operator
become `Except`-valued operations that can fail the way Python raises, and
the side-effecting functions `prom_client`, `configure_logging`,
`_load_config` and `main` become pure functions that return an explicit
record of their observable behaviour (log lines, hostnames passed to the
resolver, whether the collector was registered, and how the call ended).
External collaborators (the DNS resolver, the cluster library, the HTTP
server) are oracles packed into an `Env` record, exactly at the call sites
where the source hands control to them. -/

namespace QuotaExport

/-- Severities used by the logging calls in the source. -/
inductive LogLevel where
  | debug
  | info
  | error
  | critical
deriving DecidableEq, Repr

/-- One emitted log line: its severity and its message text. -/
structure LogMsg where
  level : LogLevel
  msg : String
deriving DecidableEq, Repr

/-- Python exceptions that the embedded dictionary/int operations can raise. -/
inductive PyErr where
  | keyError (k : String)
  | typeError
  | valueError (s : String)
deriving DecidableEq, Repr

/-- Rendering of an exception, standing for Python str(exc). -/
def PyErr.pyStr : PyErr → String
  | PyErr.keyError k => "\x27" ++ k ++ "\x27"
  | PyErr.typeError => "TypeError"
  | PyErr.valueError s => "invalid literal for int(): \x27" ++ s ++ "\x27"

/-- Values a YAML document can parse to, which is also what flows through the
Python dictionaries of the source: strings, integers, booleans, None, lists
and string-keyed mappings. -/
inductive Value where
  | vStr (s : String)
  | vInt (n : Int)
  | vBool (b : Bool)
  | vNull
  | vList (xs : List Value)
  | vMap (m : List (String × Value))

/-- First-match lookup in an association list, the embedding of reading a key
of a Python dict. -/
def lookupKey : List (String × Value) → String → Option Value
  | [], _ => none
  | (k, v) :: rest, key => if k = key then some v else lookupKey rest key

/-- Assignment `d[k] = v` on a Python dict: replace in place when the key
exists (insertion order is kept), append otherwise. -/
def assocSet : List (String × Value) → String → Value → List (String × Value)
  | [], key, v => [(key, v)]
  | (k, w) :: rest, key, v =>
      if k = key then (key, v) :: rest else (k, w) :: assocSet rest key v

/-- Does the character list start with the given needle. -/
def charsStartWith : List Char → List Char → Bool
  | [], _ => true
  | _ :: _, [] => false
  | a :: as, b :: bs => a == b && charsStartWith as bs

/-- Does the character list contain the needle as a contiguous run. -/
def charsContain (needle : List Char) : List Char → Bool
  | [] => needle.isEmpty
  | c :: rest => charsStartWith needle (c :: rest) || charsContain needle rest

/-- Python substring test `needle in hay` for strings. -/
def pySubstr (needle hay : String) : Bool :=
  charsContain needle.toList hay.toList

/-- Rendering a value inside an f-string, standing for Python str(x).  Only
the scalar renderings are relied on by any theorem below; the container
renderings are abbreviated. -/
def Value.pyStr : Value → String
  | Value.vStr s => s
  | Value.vInt n => toString n
  | Value.vBool b => if b then "True" else "False"
  | Value.vNull => "None"
  | Value.vList _ => "[...]"
  | Value.vMap _ => "\x7b...\x7d"

/-- Subscripting `v[key]` with a string key: a KeyError on a mapping that
lacks the key, a TypeError on anything that is not a mapping. -/
def Value.getItem : Value → String → Except PyErr Value
  | Value.vMap m, key =>
      match lookupKey m key with
      | some v => Except.ok v
      | none => Except.error (PyErr.keyError key)
  | _, _ => Except.error PyErr.typeError

/-- Assignment `v[key] = x`: only mappings support it; everything else
raises a TypeError. -/
def Value.setItem : Value → String → Value → Except PyErr Value
  | Value.vMap m, key, x => Except.ok (Value.vMap (assocSet m key x))
  | _, _, _ => Except.error PyErr.typeError

/-- The Python `key in v` test for a string key: key containment on a
mapping, element equality on a list (a string only equals an equal string),
substring test on a string, TypeError on the non-container scalars. -/
def Value.pyContains : Value → String → Except PyErr Bool
  | Value.vMap m, key => Except.ok (lookupKey m key).isSome
  | Value.vList xs, key =>
      Except.ok (xs.any fun x =>
        match x with
        | Value.vStr s => decide (s = key)
        | _ => false)
  | Value.vStr s, key => Except.ok (pySubstr key s)
  | _, _ => Except.error PyErr.typeError

/-- Iterating `for x in v`: a list yields its elements, a string its
characters, a mapping its keys; the scalars raise a TypeError. -/
def Value.pyIter : Value → Except PyErr (List Value)
  | Value.vList xs => Except.ok xs
  | Value.vStr s => Except.ok (s.toList.map fun c => Value.vStr (String.mk [c]))
  | Value.vMap m => Except.ok (m.map fun kv => Value.vStr kv.1)
  | _ => Except.error PyErr.typeError

/-- The Python `int(x)` conversion as used on the listen port. -/
def Value.pyInt : Value → Except PyErr Int
  | Value.vInt n => Except.ok n
  | Value.vBool b => Except.ok (if b then 1 else 0)
  | Value.vStr s =>
      match s.toInt? with
      | some n => Except.ok n
      | none => Except.error (PyErr.valueError s)
  | _ => Except.error PyErr.typeError

/-- Boolean form of the `key in v` test on the configurations that reach the
stanza checks of the source, which are always mappings there (the preceding
subscripting already succeeded on them). -/
def Value.hasKey : Value → String → Bool
  | Value.vMap m, key => (lookupKey m key).isSome
  | _, _ => false

/-- What one call of socket.gethostbyname on a host can do: succeed, raise
socket.gaierror, or raise some other exception carrying a message. -/
inductive ResolveResult where
  | resolved
  | gaierror
  | otherExc (msg : String)
deriving DecidableEq, Repr

/-- What the WekaCluster constructor call can do, as distinguished by the
except-clauses of the source: succeed, raise wekalib.exceptions.HTTPError
with a status code, raise wekalib.exceptions.SSLError, or raise any other
exception. -/
inductive ConnectResult where
  | connected
  | httpError (code : Nat) (msg : String)
  | sslError (msg : String)
  | otherError (msg : String)
deriving DecidableEq, Repr

/-- Oracles for the external collaborators of one program run: the hostname
resolver, the cluster library, and the HTTP server start. -/
structure Env where
  resolve : Value → ResolveResult
  connect : ConnectResult
  serverStartOk : Int → Bool
  serverFailMsg : Int → String

/-- How a call of `prom_client` ends: a sys.exit with a status, a Python
`return` carrying an optional value (the source returns None from the
cluster-connect failure branches and 1 from the server-start failure
branch), an uncaught exception, or entry into the infinite serve loop. -/
inductive Outcome where
  | exited (code : Nat)
  | returned (v : Option Nat)
  | raised (e : PyErr)
  | serves
deriving DecidableEq, Repr

/-- The observable behaviour of one `prom_client` call: the log lines in
order, the hostnames handed to the resolver in order, whether the Collector
object was constructed, whether it was registered with the registry, and how
the call ended. -/
structure PromResult where
  logs : List LogMsg
  attempts : List Value
  collectorBuilt : Bool
  registered : Bool
  outcome : Outcome

/-- Log lines of one loop iteration over the hosts (source lines 40-48):
nothing on success, the named critical line on gaierror, str(exc) at
critical severity on any other exception. -/
def resolveLog (h : Value) : ResolveResult → List LogMsg
  | ResolveResult.resolved => []
  | ResolveResult.gaierror =>
      [LogMsg.mk LogLevel.critical
        ("Hostname " ++ h.pyStr ++ " not resolvable - is it in /etc/hosts or DNS?")]
  | ResolveResult.otherExc m => [LogMsg.mk LogLevel.critical m]

/-- All log lines of the resolution loop, in host order. -/
def resolveLogs (env : Env) (hl : List Value) : List LogMsg :=
  hl.flatMap fun h => resolveLog h (env.resolve h)

/-- Did the resolution succeed (the loop leaves `error` untouched). -/
def isResolved : ResolveResult → Bool
  | ResolveResult.resolved => true
  | _ => false

/-- One defaulting statement of the source, the repeated pattern
`if key not in section: section[key] = dflt`. -/
def defaultStep (v : Value) (key : String) (dflt : Value) : Except PyErr Value := do
  let b ← v.pyContains key
  if b then pure v else v.setItem key dflt

/-- The cluster-stanza defaulting block (source lines 62-72). -/
def defaultCluster (cluster : Value) : Except PyErr Value := do
  let c1 ← defaultStep cluster "force_https" (Value.vBool false)
  let c2 ← defaultStep c1 "filesystems" Value.vNull
  let c3 ← defaultStep c2 "verify_cert" (Value.vBool true)
  defaultStep c3 "mgmt_port" (Value.vInt 14000)

/-- The exporter-stanza defaulting block (source lines 75-82). -/
def defaultExporter (exporter : Value) : Except PyErr Value := do
  let e1 ← defaultStep exporter "timeout" (Value.vInt 10)
  let e2 ← defaultStep e1 "backends_only" (Value.vBool true)
  defaultStep e2 "exceeded_only" (Value.vBool true)

/-- Map-level form of one defaulting statement on a mapping. -/
def defaultStepMap (m : List (String × Value)) (key : String) (dflt : Value) :
    List (String × Value) :=
  if (lookupKey m key).isSome then m else assocSet m key dflt

/-- Map-level form of the cluster defaulting block. -/
def clusterDefaultsMap (m : List (String × Value)) : List (String × Value) :=
  defaultStepMap
    (defaultStepMap
      (defaultStepMap (defaultStepMap m "force_https" (Value.vBool false))
        "filesystems" Value.vNull)
      "verify_cert" (Value.vBool true))
    "mgmt_port" (Value.vInt 14000)

/-- Map-level form of the exporter defaulting block. -/
def exporterDefaultsMap (m : List (String × Value)) : List (String × Value) :=
  defaultStepMap
    (defaultStepMap (defaultStepMap m "timeout" (Value.vInt 10))
      "backends_only" (Value.vBool true))
    "exceeded_only" (Value.vBool true)

/-- Stand-in for the text produced by traceback.format_exc(). -/
def tracebackText : String := "Traceback (most recent call last)"

/-- Evaluation of the arguments of the WekaCluster constructor call (source
lines 86-91), in Python evaluation order: the two positional subscript
chains, then the keyword arguments as written.  Every subscript happens
inside the try, so a KeyError or TypeError here lands in the generic
except-clause. -/
def connectArgs (cluster1 exporter1 : Value) : Except PyErr PUnit := do
  let _ ← cluster1.getItem "hosts"
  let _ ← cluster1.getItem "auth_token_file"
  let _ ← cluster1.getItem "force_https"
  let _ ← cluster1.getItem "verify_cert"
  let _ ← exporter1.getItem "backends_only"
  let _ ← exporter1.getItem "timeout"
  let _ ← cluster1.getItem "mgmt_port"
  pure PUnit.unit

/-- The WekaCluster construction try/except (source lines 85-107): the
result is the log lines of the taken branch and, when a branch was taken,
the way `prom_client` ends (a bare `return`, modelled as returning None). -/
def connectPhase (env : Env) (cluster1 exporter1 : Value) :
    List LogMsg × Option Outcome :=
  match connectArgs cluster1 exporter1 with
  | Except.error e =>
      ([LogMsg.mk LogLevel.critical ("Unable to create Weka Cluster: " ++ e.pyStr),
        LogMsg.mk LogLevel.critical tracebackText],
       some (Outcome.returned none))
  | Except.ok _ =>
    match env.connect with
    | ConnectResult.connected => ([], none)
    | ConnectResult.httpError code m =>
        if code = 403 then
          ([LogMsg.mk LogLevel.critical
              "Cluster returned permission error - is the userid level ReadOnly or above?"],
           some (Outcome.returned none))
        else
          ([LogMsg.mk LogLevel.critical ("Cluster returned HTTP error " ++ m ++ "; aborting")],
           some (Outcome.returned none))
    | ConnectResult.sslError m =>
        ([LogMsg.mk LogLevel.critical
            "SSL Error: Only weka v3.10 and above support https, and force_https is set in config file.",
          LogMsg.mk LogLevel.critical
            "SSL Error: Is this cluster < v3.10? Please verify configuration",
          LogMsg.mk LogLevel.critical ("Error is " ++ m)],
         some (Outcome.returned none))
    | ConnectResult.otherError m =>
        ([LogMsg.mk LogLevel.critical ("Unable to create Weka Cluster: " ++ m),
          LogMsg.mk LogLevel.critical tracebackText],
         some (Outcome.returned none))

/-- The call prometheus_client.start_http_server(int(port)) inside its try
(source lines 116-117): `some msg` when the source would land in the except
clause (either int() raised or the server failed to bind), `none` when the
server started. -/
def serverStart (env : Env) (port : Value) : Option String :=
  match port.pyInt with
  | Except.error e => some e.pyStr
  | Except.ok n => if env.serverStartOk n then none else some (env.serverFailMsg n)

/-- Source lines 84-126: the Timeout info line, the cluster construction,
the Collector construction, the listen-port read in the f-string of the
info line (outside any try), the server start, the registration, and the
infinite sleep loop.  `rlogs` are the log lines already emitted by the
resolution loop, `hl` the hostnames it attempted. -/
def runPhase (env : Env) (rlogs : List LogMsg) (hl : List Value)
    (cluster1 exporter1 : Value) : PromResult :=
  match exporter1.getItem "timeout" with
  | Except.error e =>
      { logs := rlogs, attempts := hl, collectorBuilt := false,
        registered := false, outcome := Outcome.raised e }
  | Except.ok tmo =>
    let logs1 := rlogs ++
      [LogMsg.mk LogLevel.info ("Timeout set to " ++ tmo.pyStr ++ " secs")]
    match connectPhase env cluster1 exporter1 with
    | (clogs, some out) =>
        { logs := logs1 ++ clogs, attempts := hl, collectorBuilt := false,
          registered := false, outcome := out }
    | (clogs, none) =>
      -- collector = Collector(config, cluster_obj): no failure mode
      match exporter1.getItem "listen_port" with
      | Except.error e =>
          { logs := logs1 ++ clogs, attempts := hl, collectorBuilt := true,
            registered := false, outcome := Outcome.raised e }
      | Except.ok port =>
        let logs2 := logs1 ++ clogs ++
          [LogMsg.mk LogLevel.info ("starting http server on port " ++ port.pyStr)]
        match serverStart env port with
        | some failMsg =>
            { logs := logs2 ++
                [LogMsg.mk LogLevel.critical
                  ("Unable to start http server on port " ++ port.pyStr ++ ": " ++ failMsg)],
              attempts := hl, collectorBuilt := true, registered := false,
              outcome := Outcome.returned (some 1) }
        | none =>
            { logs := logs2, attempts := hl, collectorBuilt := true,
              registered := true, outcome := Outcome.serves }

/-- Embedding of `prom_client` (source lines 38-126).  The subscript chain
config["cluster"]["hosts"] of the for-statement comes first, exactly as in
the source, so a configuration without the cluster stanza raises a KeyError
here before anything is logged or resolved; the stanza checks sit behind the
resolution loop in the original elif-chain.  The `in` tests of that chain
are written with `hasKey` because every configuration that reaches them is a
mapping (its subscripting just succeeded). -/
def prom_client (env : Env) (config : Value) : PromResult :=
  match config.getItem "cluster" with
  | Except.error e =>
      { logs := [], attempts := [], collectorBuilt := false,
        registered := false, outcome := Outcome.raised e }
  | Except.ok cluster0 =>
    match cluster0.getItem "hosts" with
    | Except.error e =>
        { logs := [], attempts := [], collectorBuilt := false,
          registered := false, outcome := Outcome.raised e }
    | Except.ok hosts0 =>
      match hosts0.pyIter with
      | Except.error e =>
          { logs := [], attempts := [], collectorBuilt := false,
            registered := false, outcome := Outcome.raised e }
      | Except.ok hl =>
        let rlogs := resolveLogs env hl
        let errorFlag := hl.any fun h => ! isResolved (env.resolve h)
        if errorFlag then
          { logs := rlogs ++
              [LogMsg.mk LogLevel.critical
                "Errors resolving hostnames given.  Please ensure they are in /etc/hosts or DNS and are resolvable"],
            attempts := hl, collectorBuilt := false, registered := false,
            outcome := Outcome.exited 1 }
        else if ! config.hasKey "cluster" then
          { logs := rlogs ++
              [LogMsg.mk LogLevel.error
                "\x27cluster:\x27 stanza missing from .yml file - version mismatch between .yml and exporter version?"],
            attempts := hl, collectorBuilt := false, registered := false,
            outcome := Outcome.exited 1 }
        else if ! config.hasKey "exporter" then
          { logs := rlogs ++
              [LogMsg.mk LogLevel.error
                "\x27exporter:\x27 stanza missing from .yml file - version mismatch between .yml and exporter version?"],
            attempts := hl, collectorBuilt := false, registered := false,
            outcome := Outcome.exited 1 }
        else
          match defaultCluster cluster0 with
          | Except.error e =>
              { logs := rlogs, attempts := hl, collectorBuilt := false,
                registered := false, outcome := Outcome.raised e }
          | Except.ok cluster1 =>
            match config.getItem "exporter" with
            | Except.error e =>
                { logs := rlogs, attempts := hl, collectorBuilt := false,
                  registered := false, outcome := Outcome.raised e }
            | Except.ok exporter0 =>
              match defaultExporter exporter0 with
              | Except.error e =>
                  { logs := rlogs, attempts := hl, collectorBuilt := false,
                    registered := false, outcome := Outcome.raised e }
              | Except.ok exporter1 => runPhase env rlogs hl cluster1 exporter1

/-- Numeric level constants of the Python logging module. -/
def DEBUG : Nat := 10

/-- Numeric level constants of the Python logging module. -/
def INFO : Nat := 20

/-- Numeric level constants of the Python logging module. -/
def ERROR : Nat := 40

/-- The process-wide logging state that `configure_logging` establishes: the
root level, the two formats, the level of every named logger it touches,
the attached handlers, the chosen syslog address, and the info line it
emits itself while attaching syslog. -/
structure LoggingConfig where
  rootLevel : Nat
  consoleFormat : String
  syslogFormat : String
  wekalibLevel : Nat
  wekaapiLevel : Nat
  wekaclusterLevel : Nat
  sthreadsLevel : Nat
  urllib3Level : Nat
  collectorLevel : Nat
  consoleHandlerAttached : Bool
  syslogHandlerAttached : Bool
  syslogAddr : Option String
  logs : List LogMsg
deriving DecidableEq, Repr

/-- Embedding of `configure_logging` (source lines 129-183).  `platformName`
stands for platform.platform().  The source assigns syslog_format twice
before the branches and then to the same string in every branch, so its
final value is that one string.  Note the verbosity-2 branch sets loglevel
and the formats but never touches libloglevel, which therefore keeps its
initial ERROR there. -/
def configure_logging (verbosity : Nat) (disable_syslog : Bool)
    (platformName : String) : LoggingConfig :=
  let loglevel := INFO
  let libloglevel := ERROR
  let console_format := "%(message)s"
  let syslog_format := "%(process)s:%(filename)s:%(lineno)s:%(funcName)s():%(levelname)s:%(message)s"
  let branch :=
    if verbosity = 1 then
      (INFO, "%(levelname)s:%(message)s", INFO)
    else if verbosity = 2 then
      (DEBUG, "%(filename)s:%(lineno)s:%(funcName)s():%(levelname)s:%(message)s", libloglevel)
    else if verbosity > 2 then
      (DEBUG, "%(filename)s:%(lineno)s:%(funcName)s():%(levelname)s:%(message)s", DEBUG)
    else
      (loglevel, console_format, libloglevel)
  { rootLevel := branch.1
    consoleFormat := branch.2.1
    syslogFormat := syslog_format
    wekalibLevel := ERROR
    wekaapiLevel := branch.2.2
    wekaclusterLevel := branch.2.2
    sthreadsLevel := ERROR
    urllib3Level := ERROR
    collectorLevel := branch.1
    consoleHandlerAttached := true
    syslogHandlerAttached := !disable_syslog
    syslogAddr :=
      if disable_syslog then none
      else some (if platformName.take 5 = "macOS" then "/var/run/syslog" else "/dev/log")
    logs :=
      if disable_syslog then []
      else [LogMsg.mk LogLevel.info ("setting syslog on " ++ platformName)] }

/-- What parsing the bytes of a file as YAML gives: a value, or a parse
failure with a message. -/
inductive YamlParse where
  | parsed (v : Value)
  | parseError (msg : String)

/-- The filesystem as the program sees it: whether a path exists, whether
open() succeeds on it, and what yaml.load makes of its contents. -/
structure FileSystem where
  fileExists : String → Bool
  openOk : String → Bool
  contents : String → YamlParse

/-- How a `_load_config` call ends: the parsed value, or a re-raised
exception from open(), or a re-raised exception from yaml.load. -/
inductive LoadOutcome where
  | ok (v : Value)
  | raisedOpen (msg : String)
  | raisedParse (msg : String)

/-- Embedding of `_load_config` (source lines 24-36): a failing open() is
re-raised bare; a failing yaml.load is logged at error severity and
re-raised; a successful parse is returned unchanged, whatever value it is —
the source checks neither that the value is a mapping nor applies any
default. -/
def _load_config (fs : FileSystem) (inputfile : String) : List LogMsg × LoadOutcome :=
  if ! fs.openOk inputfile then
    ([], LoadOutcome.raisedOpen ("cannot open " ++ inputfile))
  else
    match fs.contents inputfile with
    | YamlParse.parseError m =>
        ([LogMsg.mk LogLevel.error ("Error reading config file: " ++ m)],
         LoadOutcome.raisedParse m)
    | YamlParse.parsed v => ([], LoadOutcome.ok v)

/-- The version string of the source. -/
def VERSION : String := "2025-06-25"

/-- The parsed command line (source lines 188-196). -/
structure Args where
  configfile : String
  no_syslog : Bool
  verbosity : Nat
  version : Bool

/-- How a `main` call ends: an early sys.exit, a plain `return` (the
interpreter then ends the process with status 0), or the handing of the
loaded configuration to `prom_client`, whose result is carried along. -/
inductive MainOutcome where
  | exitedEarly (code : Nat)
  | returnedNormal
  | proceeded (pr : PromResult)

/-- The observable behaviour of one `main` call: what was printed, the
logging state if configure_logging ran, whether os.path.exists was called
on the config file, whether the config file was opened, the log lines, and
how the call ended. -/
structure MainResult where
  printed : List String
  loggingConfigured : Option LoggingConfig
  checkedExists : Bool
  openedConfig : Bool
  logs : List LogMsg
  outcome : MainOutcome

/-- Embedding of `main` (source lines 185-216): the --version early exit
comes before configure_logging, before the existence check and before any
read of the config file; a missing file is sys.exit(1); a file that exists
but fails to load is logged critical and `return`ed from; otherwise the
loaded value goes to `prom_client`. -/
def main (fs : FileSystem) (env : Env) (platformName argv0 : String)
    (args : Args) : MainResult :=
  if args.version then
    { printed := [argv0 ++ " version " ++ VERSION], loggingConfigured := none,
      checkedExists := false, openedConfig := false, logs := [],
      outcome := MainOutcome.exitedEarly 0 }
  else
    let lc := configure_logging args.verbosity args.no_syslog platformName
    if ! fs.fileExists args.configfile then
      { printed := [], loggingConfigured := some lc, checkedExists := true,
        openedConfig := false,
        logs := lc.logs ++
          [LogMsg.mk LogLevel.critical
            ("Required configfile \x27" ++ args.configfile ++ "\x27 does not exist")],
        outcome := MainOutcome.exitedEarly 1 }
    else
      match _load_config fs args.configfile with
      | (llogs, LoadOutcome.ok v) =>
          let pr := prom_client env v
          { printed := [], loggingConfigured := some lc, checkedExists := true,
            openedConfig := true,
            logs := lc.logs ++ [LogMsg.mk LogLevel.debug "loading config file"] ++
              llogs ++ [LogMsg.mk LogLevel.debug "config file loaded"] ++ pr.logs,
            outcome := MainOutcome.proceeded pr }
      | (llogs, LoadOutcome.raisedOpen m) =>
          { printed := [], loggingConfigured := some lc, checkedExists := true,
            openedConfig := true,
            logs := lc.logs ++ [LogMsg.mk LogLevel.debug "loading config file"] ++
              llogs ++
              [LogMsg.mk LogLevel.critical
                ("Error loading config file \x27" ++ args.configfile ++ "\x27: " ++ m)],
            outcome := MainOutcome.returnedNormal }
      | (llogs, LoadOutcome.raisedParse m) =>
          { printed := [], loggingConfigured := some lc, checkedExists := true,
            openedConfig := true,
            logs := lc.logs ++ [LogMsg.mk LogLevel.debug "loading config file"] ++
              llogs ++
              [LogMsg.mk LogLevel.critical
                ("Error loading config file \x27" ++ args.configfile ++ "\x27: " ++ m)],
            outcome := MainOutcome.returnedNormal }

/-- The exit status of the whole process for a given `main` behaviour:
sys.exit carries its code, a plain return from main ends the interpreter
with 0 (also when prom_client returned its failure sentinel 1 — main
discards that value), an uncaught exception ends it with 1, and the serve
loop never exits. -/
def processExitStatus (mr : MainResult) : Option Nat :=
  match mr.outcome with
  | MainOutcome.exitedEarly c => some c
  | MainOutcome.returnedNormal => some 0
  | MainOutcome.proceeded pr =>
      match pr.outcome with
      | Outcome.exited c => some c
      | Outcome.returned _ => some 0
      | Outcome.raised _ => some 1
      | Outcome.serves => none

theorem lookupKey_assocSet_self (m : List (String × Value)) (k : String) (v : Value) :
    lookupKey (assocSet m k v) k = some v := by
  induction m with
  | nil => simp [assocSet, lookupKey]
  | cons p rest ih =>
    by_cases h : p.1 = k
    · simp [assocSet, h, lookupKey]
    · simp [assocSet, h, lookupKey, ih]

theorem lookupKey_assocSet_ne {k' k : String} (m : List (String × Value)) (v : Value)
    (h : k' ≠ k) : lookupKey (assocSet m k v) k' = lookupKey m k' := by
  induction m with
  | nil => simp [assocSet, lookupKey, Ne.symm h]
  | cons p rest ih =>
    by_cases hp : p.1 = k
    · simp [assocSet, hp, lookupKey, Ne.symm h]
    · simp [assocSet, hp, lookupKey, ih]

theorem lookupKey_defaultStepMap_self (m : List (String × Value)) (k : String) (d : Value) :
    lookupKey (defaultStepMap m k d) k = some ((lookupKey m k).getD d) := by
  unfold defaultStepMap
  cases h : lookupKey m k with
  | some v => simp [h]
  | none => simp [h, lookupKey_assocSet_self]

theorem lookupKey_defaultStepMap_ne {k' k : String} (m : List (String × Value)) (d : Value)
    (h : k' ≠ k) : lookupKey (defaultStepMap m k d) k' = lookupKey m k' := by
  unfold defaultStepMap
  cases hs : (lookupKey m k).isSome <;> simp [lookupKey_assocSet_ne m d h]

theorem lookupKey_defaultStepMap_of_some {m : List (String × Value)} {k' : String}
    {v : Value} (k : String) (d : Value) (h : lookupKey m k' = some v) :
    lookupKey (defaultStepMap m k d) k' = some v := by
  by_cases hk : k' = k
  · subst hk
    rw [lookupKey_defaultStepMap_self, h]
    rfl
  · rw [lookupKey_defaultStepMap_ne m d hk, h]

theorem defaultStep_vMap (m : List (String × Value)) (k : String) (d : Value) :
    defaultStep (Value.vMap m) k d = Except.ok (Value.vMap (defaultStepMap m k d)) := by
  unfold defaultStep defaultStepMap
  cases h : (lookupKey m k).isSome <;>
    simp [Value.pyContains, Value.setItem, h, Bind.bind, Except.bind, pure, Except.pure]

theorem defaultCluster_vMap (m : List (String × Value)) :
    defaultCluster (Value.vMap m) = Except.ok (Value.vMap (clusterDefaultsMap m)) := by
  unfold defaultCluster clusterDefaultsMap
  simp [defaultStep_vMap, Bind.bind, Except.bind]

theorem defaultExporter_vMap (m : List (String × Value)) :
    defaultExporter (Value.vMap m) = Except.ok (Value.vMap (exporterDefaultsMap m)) := by
  unfold defaultExporter exporterDefaultsMap
  simp [defaultStep_vMap, Bind.bind, Except.bind]

theorem hasKey_of_getItem_ok {v : Value} {k : String} {x : Value}
    (h : v.getItem k = Except.ok x) : v.hasKey k = true := by
  cases v <;> simp [Value.getItem] at h
  case vMap m =>
    cases hl : lookupKey m k with
    | none => rw [hl] at h; exact absurd h (by simp)
    | some w => simp [Value.hasKey, hl]

theorem getItem_vMap_some {m : List (String × Value)} {k : String} {x : Value}
    (h : lookupKey m k = some x) : (Value.vMap m).getItem k = Except.ok x := by
  simp [Value.getItem, h]

theorem getItem_vMap_none {m : List (String × Value)} {k : String}
    (h : lookupKey m k = none) :
    (Value.vMap m).getItem k = Except.error (PyErr.keyError k) := by
  simp [Value.getItem, h]

theorem resolveLogs_eq_nil {env : Env} :
    ∀ {hl : List Value}, (∀ x ∈ hl, env.resolve x = ResolveResult.resolved) →
    resolveLogs env hl = []
  | [], _ => rfl
  | a :: t, h => by
      have ha : env.resolve a = ResolveResult.resolved := h a (by simp)
      have ht : resolveLogs env t = [] :=
        resolveLogs_eq_nil (fun x hx => h x (by simp [hx]))
      simp only [resolveLogs, List.flatMap_cons] at ht ⊢
      rw [ha, ht]
      rfl

theorem any_not_resolved_false {env : Env} {hl : List Value}
    (h : ∀ x ∈ hl, env.resolve x = ResolveResult.resolved) :
    (hl.any fun x => ! isResolved (env.resolve x)) = false := by
  rw [List.any_eq_false]
  intro x hx
  rw [h x hx]
  simp [isResolved]

theorem any_not_resolved_true {env : Env} {hl : List Value}
    (h : ∃ x ∈ hl, env.resolve x ≠ ResolveResult.resolved) :
    (hl.any fun x => ! isResolved (env.resolve x)) = true := by
  rw [List.any_eq_true]
  obtain ⟨x, hx, hne⟩ := h
  refine ⟨x, hx, ?_⟩
  cases hres : env.resolve x
  case resolved => exact absurd hres hne
  case gaierror => rfl
  case otherExc m => rfl

theorem mem_resolveLogs {env : Env} {x : Value} :
    ∀ {hl : List Value}, x ∈ hl → env.resolve x = ResolveResult.gaierror →
    LogMsg.mk LogLevel.critical
      ("Hostname " ++ x.pyStr ++ " not resolvable - is it in /etc/hosts or DNS?")
      ∈ resolveLogs env hl
  | a :: t, hmem, hg => by
      simp only [resolveLogs, List.flatMap_cons]
      rcases List.mem_cons.mp hmem with h | h
      · subst h
        rw [hg]
        simp [resolveLog]
      · exact List.mem_append_right _ (mem_resolveLogs h hg)

theorem lookup_of_getItem_vMap_ok {m : List (String × Value)} {k : String} {x : Value}
    (h : (Value.vMap m).getItem k = Except.ok x) : lookupKey m k = some x := by
  cases hl : lookupKey m k with
  | none => rw [getItem_vMap_none hl] at h; cases h
  | some w =>
      rw [getItem_vMap_some hl] at h
      injection h with hwx
      rw [hwx]

theorem lookupKey_clusterDefaultsMap_force_https (m : List (String × Value)) :
    lookupKey (clusterDefaultsMap m) "force_https" =
      some ((lookupKey m "force_https").getD (Value.vBool false)) := by
  unfold clusterDefaultsMap
  rw [lookupKey_defaultStepMap_ne _ _ (by decide), lookupKey_defaultStepMap_ne _ _ (by decide),
      lookupKey_defaultStepMap_ne _ _ (by decide), lookupKey_defaultStepMap_self]

theorem lookupKey_clusterDefaultsMap_filesystems (m : List (String × Value)) :
    lookupKey (clusterDefaultsMap m) "filesystems" =
      some ((lookupKey m "filesystems").getD Value.vNull) := by
  unfold clusterDefaultsMap
  rw [lookupKey_defaultStepMap_ne _ _ (by decide), lookupKey_defaultStepMap_ne _ _ (by decide),
      lookupKey_defaultStepMap_self, lookupKey_defaultStepMap_ne _ _ (by decide)]

theorem lookupKey_clusterDefaultsMap_verify_cert (m : List (String × Value)) :
    lookupKey (clusterDefaultsMap m) "verify_cert" =
      some ((lookupKey m "verify_cert").getD (Value.vBool true)) := by
  unfold clusterDefaultsMap
  rw [lookupKey_defaultStepMap_ne _ _ (by decide), lookupKey_defaultStepMap_self,
      lookupKey_defaultStepMap_ne _ _ (by decide), lookupKey_defaultStepMap_ne _ _ (by decide)]

theorem lookupKey_clusterDefaultsMap_mgmt_port (m : List (String × Value)) :
    lookupKey (clusterDefaultsMap m) "mgmt_port" =
      some ((lookupKey m "mgmt_port").getD (Value.vInt 14000)) := by
  unfold clusterDefaultsMap
  rw [lookupKey_defaultStepMap_self, lookupKey_defaultStepMap_ne _ _ (by decide),
      lookupKey_defaultStepMap_ne _ _ (by decide), lookupKey_defaultStepMap_ne _ _ (by decide)]

theorem lookupKey_clusterDefaultsMap_other (m : List (String × Value)) {k : String}
    (n1 : k ≠ "force_https") (n2 : k ≠ "filesystems") (n3 : k ≠ "verify_cert")
    (n4 : k ≠ "mgmt_port") :
    lookupKey (clusterDefaultsMap m) k = lookupKey m k := by
  unfold clusterDefaultsMap
  rw [lookupKey_defaultStepMap_ne _ _ n4, lookupKey_defaultStepMap_ne _ _ n3,
      lookupKey_defaultStepMap_ne _ _ n2, lookupKey_defaultStepMap_ne _ _ n1]

theorem lookupKey_clusterDefaultsMap_of_some (m : List (String × Value)) {k : String}
    {v : Value} (h : lookupKey m k = some v) :
    lookupKey (clusterDefaultsMap m) k = some v := by
  unfold clusterDefaultsMap
  exact lookupKey_defaultStepMap_of_some _ _
    (lookupKey_defaultStepMap_of_some _ _
      (lookupKey_defaultStepMap_of_some _ _ (lookupKey_defaultStepMap_of_some _ _ h)))

theorem lookupKey_exporterDefaultsMap_timeout (m : List (String × Value)) :
    lookupKey (exporterDefaultsMap m) "timeout" =
      some ((lookupKey m "timeout").getD (Value.vInt 10)) := by
  unfold exporterDefaultsMap
  rw [lookupKey_defaultStepMap_ne _ _ (by decide), lookupKey_defaultStepMap_ne _ _ (by decide),
      lookupKey_defaultStepMap_self]

theorem lookupKey_exporterDefaultsMap_backends_only (m : List (String × Value)) :
    lookupKey (exporterDefaultsMap m) "backends_only" =
      some ((lookupKey m "backends_only").getD (Value.vBool true)) := by
  unfold exporterDefaultsMap
  rw [lookupKey_defaultStepMap_ne _ _ (by decide), lookupKey_defaultStepMap_self,
      lookupKey_defaultStepMap_ne _ _ (by decide)]

theorem lookupKey_exporterDefaultsMap_exceeded_only (m : List (String × Value)) :
    lookupKey (exporterDefaultsMap m) "exceeded_only" =
      some ((lookupKey m "exceeded_only").getD (Value.vBool true)) := by
  unfold exporterDefaultsMap
  rw [lookupKey_defaultStepMap_self, lookupKey_defaultStepMap_ne _ _ (by decide),
      lookupKey_defaultStepMap_ne _ _ (by decide)]

theorem lookupKey_exporterDefaultsMap_other (m : List (String × Value)) {k : String}
    (n1 : k ≠ "timeout") (n2 : k ≠ "backends_only") (n3 : k ≠ "exceeded_only") :
    lookupKey (exporterDefaultsMap m) k = lookupKey m k := by
  unfold exporterDefaultsMap
  rw [lookupKey_defaultStepMap_ne _ _ n3, lookupKey_defaultStepMap_ne _ _ n2,
      lookupKey_defaultStepMap_ne _ _ n1]

theorem lookupKey_exporterDefaultsMap_of_some (m : List (String × Value)) {k : String}
    {v : Value} (h : lookupKey m k = some v) :
    lookupKey (exporterDefaultsMap m) k = some v := by
  unfold exporterDefaultsMap
  exact lookupKey_defaultStepMap_of_some _ _
    (lookupKey_defaultStepMap_of_some _ _ (lookupKey_defaultStepMap_of_some _ _ h))

theorem prom_client_run {env : Env} {config cluster0 hosts0 : Value} {hl : List Value}
    {exporter0 cluster1 exporter1 : Value}
    (h1 : config.getItem "cluster" = Except.ok cluster0)
    (h2 : cluster0.getItem "hosts" = Except.ok hosts0)
    (h3 : hosts0.pyIter = Except.ok hl)
    (h4 : ∀ x ∈ hl, env.resolve x = ResolveResult.resolved)
    (h7 : config.getItem "exporter" = Except.ok exporter0)
    (h6 : defaultCluster cluster0 = Except.ok cluster1)
    (h8 : defaultExporter exporter0 = Except.ok exporter1) :
    prom_client env config = runPhase env [] hl cluster1 exporter1 := by
  have hck : config.hasKey "cluster" = true := hasKey_of_getItem_ok h1
  have hek : config.hasKey "exporter" = true := hasKey_of_getItem_ok h7
  have hrl : resolveLogs env hl = [] := resolveLogs_eq_nil h4
  have haf : (hl.any fun x => ! isResolved (env.resolve x)) = false :=
    any_not_resolved_false h4
  simp [prom_client, h1, h2, h3, hrl, haf, hck, hek, h6, h7, h8]

/-- Fixture: every hostname resolves, the cluster connects, the server starts. -/
def envOk : Env :=
  { resolve := fun _ => ResolveResult.resolved
    connect := ConnectResult.connected
    serverStartOk := fun _ => true
    serverFailMsg := fun _ => "Address already in use" }

/-- Fixture: the host named badhost raises gaierror, everything else works. -/
def envBadHost : Env :=
  { resolve := fun v =>
      match v with
      | Value.vStr s => if s = "badhost" then ResolveResult.gaierror else ResolveResult.resolved
      | _ => ResolveResult.resolved
    connect := ConnectResult.connected
    serverStartOk := fun _ => true
    serverFailMsg := fun _ => "Address already in use" }

/-- Fixture: resolution and connection work but the HTTP server cannot bind. -/
def envBindFail : Env :=
  { resolve := fun _ => ResolveResult.resolved
    connect := ConnectResult.connected
    serverStartOk := fun _ => false
    serverFailMsg := fun _ => "Address already in use" }

/-- Fixture: the cluster constructor raises an SSL negotiation error. -/
def envSsl : Env :=
  { resolve := fun _ => ResolveResult.resolved
    connect := ConnectResult.sslError "handshake failure"
    serverStartOk := fun _ => true
    serverFailMsg := fun _ => "Address already in use" }

/-- Fixture: the cluster constructor raises an HTTP 403 error. -/
def env403 : Env :=
  { resolve := fun _ => ResolveResult.resolved
    connect := ConnectResult.httpError 403 "403 Forbidden"
    serverStartOk := fun _ => true
    serverFailMsg := fun _ => "Address already in use" }

/-- Fixture configuration with two hosts of which badhost is unresolvable. -/
def cfgTwoHosts : Value :=
  Value.vMap
    [("cluster", Value.vMap
        [("hosts", Value.vList [Value.vStr "goodhost", Value.vStr "badhost"]),
         ("auth_token_file", Value.vStr "auth-token.json")]),
     ("exporter", Value.vMap [("listen_port", Value.vInt 8001)])]

/-- Fixture configuration whose exporter stanza lacks listen_port. -/
def cfgNoPort : Value :=
  Value.vMap
    [("cluster", Value.vMap
        [("hosts", Value.vList [Value.vStr "goodhost"]),
         ("auth_token_file", Value.vStr "auth-token.json")]),
     ("exporter", Value.vMap [("timeout", Value.vInt 5)])]

/-- Fixture: a fully defaulted cluster stanza, as the WekaCluster call sees it. -/
def clusterReady : Value :=
  Value.vMap
    [("hosts", Value.vList [Value.vStr "goodhost"]),
     ("auth_token_file", Value.vStr "auth-token.json"),
     ("force_https", Value.vBool true),
     ("verify_cert", Value.vBool true),
     ("mgmt_port", Value.vInt 14000)]

/-- Fixture: a fully defaulted exporter stanza. -/
def exporterReady : Value :=
  Value.vMap
    [("listen_port", Value.vInt 8001),
     ("timeout", Value.vInt 10),
     ("backends_only", Value.vBool true),
     ("exceeded_only", Value.vBool true)]

/-- Fixture: default command-line arguments with --version off. -/
def argsRun : Args :=
  { configfile := "./quota-export.yml", no_syslog := false, verbosity := 0, version := false }

/-- Fixture filesystem: the config file does not exist at all. -/
def fsMissing : FileSystem :=
  { fileExists := fun _ => false
    openOk := fun _ => false
    contents := fun _ => YamlParse.parseError "unreadable" }

/-- Fixture filesystem: the config file exists but open() fails on it. -/
def fsUnreadable : FileSystem :=
  { fileExists := fun _ => true
    openOk := fun _ => false
    contents := fun _ => YamlParse.parseError "unreadable" }

/-- Fixture filesystem: the config file exists but is not valid YAML. -/
def fsBadYaml : FileSystem :=
  { fileExists := fun _ => true
    openOk := fun _ => true
    contents := fun _ => YamlParse.parseError "mapping values are not allowed here" }

/-- Fixture filesystem: the config file parses to a plain string, not a mapping. -/
def fsScalarYaml : FileSystem :=
  { fileExists := fun _ => true
    openOk := fun _ => true
    contents := fun _ => YamlParse.parsed (Value.vStr "just a string") }

/-- Claim C1 (code bug): the claim says a configuration mapping without the
cluster stanza fails validation with the MissingStanza version-mismatch
message and a non-zero exit before any resolution call.  On the code, the
subscript config["cluster"] of the resolution for-statement runs first, so
such a configuration raises an uncaught KeyError "cluster" with NO log line
and no sys.exit; the elif branch holding the version-mismatch message is
unreachable for a missing cluster stanza.  The resolution part holds
vacuously (attempts is empty), the message-and-exit part does not. -/
theorem claim_C1 (env : Env) (m : List (String × Value))
    (h : lookupKey m "cluster" = none) :
    prom_client env (Value.vMap m) =
      { logs := [], attempts := [], collectorBuilt := false, registered := false,
        outcome := Outcome.raised (PyErr.keyError "cluster") } := by
  unfold prom_client
  rw [getItem_vMap_none h]

/-- Witness for claim C1 at a concrete configuration lacking the cluster
stanza: the call raises KeyError "cluster", logs nothing, resolves nothing. -/
theorem claim_C1_witness :
    prom_client envOk (Value.vMap [("exporter", Value.vMap [("listen_port", Value.vInt 9001)])]) =
      { logs := [], attempts := [], collectorBuilt := false, registered := false,
        outcome := Outcome.raised (PyErr.keyError "cluster") } :=
  claim_C1 envOk _ rfl

/-- Claim C2: for any cluster and exporter stanza mappings, the defaulting
block sets exactly the absent optional keys to their defaults (force_https
false, filesystems null, verify_cert true, mgmt_port 14000, timeout 10,
backends_only true, exceeded_only true), leaves every explicitly-set key
unchanged, and touches no other key; in particular a missing timeout becomes
10 and an explicit timeout keeps its value. -/
theorem claim_C2 (cm em cm' em' : List (String × Value))
    (hc : defaultCluster (Value.vMap cm) = Except.ok (Value.vMap cm'))
    (he : defaultExporter (Value.vMap em) = Except.ok (Value.vMap em')) :
    lookupKey cm' "force_https" = some ((lookupKey cm "force_https").getD (Value.vBool false)) ∧
    lookupKey cm' "filesystems" = some ((lookupKey cm "filesystems").getD Value.vNull) ∧
    lookupKey cm' "verify_cert" = some ((lookupKey cm "verify_cert").getD (Value.vBool true)) ∧
    lookupKey cm' "mgmt_port" = some ((lookupKey cm "mgmt_port").getD (Value.vInt 14000)) ∧
    lookupKey em' "timeout" = some ((lookupKey em "timeout").getD (Value.vInt 10)) ∧
    lookupKey em' "backends_only" = some ((lookupKey em "backends_only").getD (Value.vBool true)) ∧
    lookupKey em' "exceeded_only" = some ((lookupKey em "exceeded_only").getD (Value.vBool true)) ∧
    (∀ k v, lookupKey cm k = some v → lookupKey cm' k = some v) ∧
    (∀ k v, lookupKey em k = some v → lookupKey em' k = some v) ∧
    (∀ k, k ≠ "force_https" → k ≠ "filesystems" → k ≠ "verify_cert" → k ≠ "mgmt_port" →
      lookupKey cm' k = lookupKey cm k) ∧
    (∀ k, k ≠ "timeout" → k ≠ "backends_only" → k ≠ "exceeded_only" →
      lookupKey em' k = lookupKey em k) := by
  have hcm : cm' = clusterDefaultsMap cm := by
    have h := hc.symm.trans (defaultCluster_vMap cm)
    simpa using h
  have hem : em' = exporterDefaultsMap em := by
    have h := he.symm.trans (defaultExporter_vMap em)
    simpa using h
  subst hcm
  subst hem
  refine ⟨lookupKey_clusterDefaultsMap_force_https cm,
    lookupKey_clusterDefaultsMap_filesystems cm,
    lookupKey_clusterDefaultsMap_verify_cert cm,
    lookupKey_clusterDefaultsMap_mgmt_port cm,
    lookupKey_exporterDefaultsMap_timeout em,
    lookupKey_exporterDefaultsMap_backends_only em,
    lookupKey_exporterDefaultsMap_exceeded_only em,
    fun k v h => lookupKey_clusterDefaultsMap_of_some cm h,
    fun k v h => lookupKey_exporterDefaultsMap_of_some em h,
    fun k n1 n2 n3 n4 => lookupKey_clusterDefaultsMap_other cm n1 n2 n3 n4,
    fun k n1 n2 n3 => lookupKey_exporterDefaultsMap_other em n1 n2 n3⟩

/-- Witness for claim C2: an exporter stanza with explicit timeout 5 keeps
5 after defaulting, and one without timeout gets 10. -/
theorem claim_C2_witness :
    lookupKey [("timeout", Value.vInt 5), ("backends_only", Value.vBool true),
        ("exceeded_only", Value.vBool true)] "timeout"
      = some ((lookupKey [("timeout", Value.vInt 5)] "timeout").getD (Value.vInt 10)) ∧
    lookupKey [("timeout", Value.vInt 10), ("backends_only", Value.vBool true),
        ("exceeded_only", Value.vBool true)] "timeout"
      = some ((lookupKey ([] : List (String × Value)) "timeout").getD (Value.vInt 10)) ∧
    (lookupKey [("timeout", Value.vInt 5)] "timeout").getD (Value.vInt 10) = Value.vInt 5 ∧
    (lookupKey ([] : List (String × Value)) "timeout").getD (Value.vInt 10) = Value.vInt 10 := by
  have h5 := claim_C2 []
    [("timeout", Value.vInt 5)]
    [("force_https", Value.vBool false), ("filesystems", Value.vNull),
     ("verify_cert", Value.vBool true), ("mgmt_port", Value.vInt 14000)]
    [("timeout", Value.vInt 5), ("backends_only", Value.vBool true),
     ("exceeded_only", Value.vBool true)]
    rfl rfl
  have h0 := claim_C2 []
    []
    [("force_https", Value.vBool false), ("filesystems", Value.vNull),
     ("verify_cert", Value.vBool true), ("mgmt_port", Value.vInt 14000)]
    [("timeout", Value.vInt 10), ("backends_only", Value.vBool true),
     ("exceeded_only", Value.vBool true)]
    rfl rfl
  exact ⟨h5.2.2.2.2.1, h0.2.2.2.2.1, rfl, rfl⟩

/-- Claim C3: when at least one configured host fails to resolve, the
resolution loop still attempts every host in the list (attempts equals the
whole list), a critical line naming each gaierror host is among the logs,
and the call ends with sys.exit(1), whose summary critical line is the last
log line — so the exit happens only after the exhaustive sweep. -/
theorem claim_C3 (env : Env) (config cluster0 hosts0 : Value) (hl : List Value)
    (h1 : config.getItem "cluster" = Except.ok cluster0)
    (h2 : cluster0.getItem "hosts" = Except.ok hosts0)
    (h3 : hosts0.pyIter = Except.ok hl)
    (h4 : ∃ x ∈ hl, env.resolve x ≠ ResolveResult.resolved) :
    (prom_client env config).attempts = hl ∧
    (prom_client env config).outcome = Outcome.exited 1 ∧
    (∀ x ∈ hl, env.resolve x = ResolveResult.gaierror →
      LogMsg.mk LogLevel.critical
        ("Hostname " ++ x.pyStr ++ " not resolvable - is it in /etc/hosts or DNS?")
        ∈ (prom_client env config).logs) ∧
    (prom_client env config).logs.getLast? =
      some (LogMsg.mk LogLevel.critical
        "Errors resolving hostnames given.  Please ensure they are in /etc/hosts or DNS and are resolvable") := by
  have haf := any_not_resolved_true h4
  have hpc : prom_client env config =
      { logs := resolveLogs env hl ++
          [LogMsg.mk LogLevel.critical
            "Errors resolving hostnames given.  Please ensure they are in /etc/hosts or DNS and are resolvable"],
        attempts := hl, collectorBuilt := false, registered := false,
        outcome := Outcome.exited 1 } := by
    simp [prom_client, h1, h2, h3, haf]
  rw [hpc]
  refine ⟨rfl, rfl, ?_, ?_⟩
  · intro x hx hg
    exact List.mem_append_left _ (mem_resolveLogs hx hg)
  · exact List.getLast?_concat _

/-- Witness for claim C3 at a concrete configuration with one resolvable and
one unresolvable host: both were attempted, the bad one is named at
critical severity, and the process exits with status 1. -/
theorem claim_C3_witness :
    (prom_client envBadHost cfgTwoHosts).attempts = [Value.vStr "goodhost", Value.vStr "badhost"] ∧
    (prom_client envBadHost cfgTwoHosts).outcome = Outcome.exited 1 ∧
    LogMsg.mk LogLevel.critical "Hostname badhost not resolvable - is it in /etc/hosts or DNS?"
      ∈ (prom_client envBadHost cfgTwoHosts).logs := by
  have h := claim_C3 envBadHost cfgTwoHosts _ _ _ rfl rfl rfl
    ⟨Value.vStr "badhost", by simp, by decide⟩
  exact ⟨h.1, h.2.1, h.2.2.1 (Value.vStr "badhost") (by simp) rfl⟩

/-- Counterexample to claim C4 as stated: at verbosity exactly 2 the
library-subsystem loggers are NOT at INFO — the verbosity-2 branch never
assigns libloglevel, so they keep the initial default ERROR (40), not the
verbosity-1 value INFO (20). -/
theorem claim_C4_counterexample :
    (configure_logging 2 false "Linux").wekaapiLevel = ERROR ∧
    (configure_logging 1 false "Linux").wekaapiLevel = INFO ∧
    (configure_logging 2 false "Linux").wekaapiLevel ≠ INFO := by
  exact ⟨rfl, rfl, by decide⟩

/-- Claim C4 (amended): for every verbosity v ≥ 2 the root level is DEBUG
and the console format carries file, line and function; the
library-subsystem loggers (wekalib.wekaapi, wekalib.wekacluster) are DEBUG
when v ≥ 3, and at v = 2 they keep the initial default ERROR — not the
verbosity-1 level INFO that the original claim stated. -/
theorem claim_C4 (v : Nat) (hv : 2 ≤ v) (ds : Bool) (p : String) :
    (configure_logging v ds p).rootLevel = DEBUG ∧
    (configure_logging v ds p).consoleFormat =
      "%(filename)s:%(lineno)s:%(funcName)s():%(levelname)s:%(message)s" ∧
    (v = 2 → (configure_logging v ds p).wekaapiLevel = ERROR ∧
             (configure_logging v ds p).wekaclusterLevel = ERROR) ∧
    (3 ≤ v → (configure_logging v ds p).wekaapiLevel = DEBUG ∧
             (configure_logging v ds p).wekaclusterLevel = DEBUG) := by
  by_cases h2 : v = 2
  · subst h2
    exact ⟨rfl, rfl, fun _ => ⟨rfl, rfl⟩, fun h => absurd h (by omega)⟩
  · have hne1 : ¬ v = 1 := by omega
    have h3 : 2 < v := by omega
    refine ⟨?_, ?_, fun h => absurd h h2, fun _ => ⟨?_, ?_⟩⟩ <;>
      simp [configure_logging, hne1, h2, h3]

/-- Witness for claim C4 at verbosities 2 and 3: DEBUG root both times, the
library loggers at ERROR for 2 and at DEBUG for 3. -/
theorem claim_C4_witness :
    (configure_logging 2 false "Linux").rootLevel = DEBUG ∧
    (configure_logging 2 false "Linux").wekaapiLevel = ERROR ∧
    (configure_logging 3 false "Linux").rootLevel = DEBUG ∧
    (configure_logging 3 false "Linux").wekaapiLevel = DEBUG := by
  have h2 := claim_C4 2 (by decide) false "Linux"
  have h3 := claim_C4 3 (by decide) false "Linux"
  exact ⟨h2.1, (h2.2.2.1 rfl).1, h3.1, (h3.2.2.2 (by decide)).1⟩

/-- Claim C5: on every run that reaches the server-start step and fails
there, prom_client logs the critical bind-failure line and returns the
explicit failure value 1 (Outcome.returned (some 1)), which is distinct
from the bare `return` (Outcome.returned none) of the cluster-connect
failure branches, and the collector is never registered on that path. -/
theorem claim_C5 (env : Env) (config cluster0 hosts0 : Value) (hl : List Value)
    (exporter0 cluster1 exporter1 tmo port : Value) (failMsg : String)
    (h1 : config.getItem "cluster" = Except.ok cluster0)
    (h2 : cluster0.getItem "hosts" = Except.ok hosts0)
    (h3 : hosts0.pyIter = Except.ok hl)
    (h4 : ∀ x ∈ hl, env.resolve x = ResolveResult.resolved)
    (h7 : config.getItem "exporter" = Except.ok exporter0)
    (h6 : defaultCluster cluster0 = Except.ok cluster1)
    (h8 : defaultExporter exporter0 = Except.ok exporter1)
    (h9 : exporter1.getItem "timeout" = Except.ok tmo)
    (h10 : connectPhase env cluster1 exporter1 = ([], none))
    (h11 : exporter1.getItem "listen_port" = Except.ok port)
    (h12 : serverStart env port = some failMsg) :
    prom_client env config =
      { logs := [LogMsg.mk LogLevel.info ("Timeout set to " ++ tmo.pyStr ++ " secs"),
                 LogMsg.mk LogLevel.info ("starting http server on port " ++ port.pyStr),
                 LogMsg.mk LogLevel.critical
                   ("Unable to start http server on port " ++ port.pyStr ++ ": " ++ failMsg)],
        attempts := hl, collectorBuilt := true, registered := false,
        outcome := Outcome.returned (some 1) } ∧
    Outcome.returned (some 1) ≠ Outcome.returned none := by
  refine ⟨?_, by decide⟩
  rw [prom_client_run h1 h2 h3 h4 h7 h6 h8]
  simp [runPhase, h9, h10, h11, h12]

/-- Witness for claim C5: a concrete run whose HTTP server cannot bind logs
the critical line, returns 1, and never registers the collector. -/
theorem claim_C5_witness :
    prom_client envBindFail cfgTwoHosts =
      { logs := [LogMsg.mk LogLevel.info
                   ("Timeout set to " ++ (Value.vInt 10).pyStr ++ " secs"),
                 LogMsg.mk LogLevel.info
                   ("starting http server on port " ++ (Value.vInt 8001).pyStr),
                 LogMsg.mk LogLevel.critical
                   ("Unable to start http server on port " ++ (Value.vInt 8001).pyStr ++
                     ": " ++ "Address already in use")],
        attempts := [Value.vStr "goodhost", Value.vStr "badhost"],
        collectorBuilt := true, registered := false,
        outcome := Outcome.returned (some 1) } ∧
    Outcome.returned (some 1) ≠ Outcome.returned none :=
  claim_C5 envBindFail cfgTwoHosts _ _ _ _ _ _ _ _ _
    rfl rfl rfl (fun _ _ => rfl) rfl rfl rfl rfl rfl rfl rfl

/-- Claim C6: with --version among the arguments, main prints the version
string and exits with status 0 before configure_logging runs, before the
config file existence check, and before any read of the file — for every
filesystem, hence also when the config file does not exist. -/
theorem claim_C6 (fs : FileSystem) (env : Env) (p a0 : String) (args : Args)
    (hv : args.version = true) :
    main fs env p a0 args =
      { printed := [a0 ++ " version " ++ VERSION], loggingConfigured := none,
        checkedExists := false, openedConfig := false, logs := [],
        outcome := MainOutcome.exitedEarly 0 } ∧
    processExitStatus (main fs env p a0 args) = some 0 := by
  constructor
  · simp [main, hv]
  · simp [main, hv, processExitStatus]

/-- Witness for claim C6 on a filesystem where the config file does not
exist: --version still prints and exits 0 without checking or reading it. -/
theorem claim_C6_witness :
    main fsMissing envOk "Linux" "./quota-export.py"
        { configfile := "./quota-export.yml", no_syslog := false, verbosity := 0,
          version := true } =
      { printed := ["./quota-export.py" ++ " version " ++ VERSION],
        loggingConfigured := none, checkedExists := false, openedConfig := false,
        logs := [], outcome := MainOutcome.exitedEarly 0 } ∧
    processExitStatus (main fsMissing envOk "Linux" "./quota-export.py"
        { configfile := "./quota-export.yml", no_syslog := false, verbosity := 0,
          version := true }) = some 0 :=
  claim_C6 fsMissing envOk "Linux" "./quota-export.py" _ rfl

/-- Counterexample to claim C7 as stated: a file that parses to a plain
string — not a mapping — is returned as-is by the loader, with no
ParseError. -/
theorem claim_C7_counterexample :
    (_load_config fsScalarYaml "quota-export.yml").2 =
      LoadOutcome.ok (Value.vStr "just a string") := rfl

/-- Claim C7 (amended): the loader re-raises a ParseError, after logging an
error line, exactly when the YAML does not parse; when parsing succeeds it
returns the parsed value unchanged whatever it is — it neither checks that
the value is a mapping nor applies any default. -/
theorem claim_C7 (fs : FileSystem) (path : String) (hopen : fs.openOk path = true) :
    (∀ m, fs.contents path = YamlParse.parseError m →
      _load_config fs path =
        ([LogMsg.mk LogLevel.error ("Error reading config file: " ++ m)],
         LoadOutcome.raisedParse m)) ∧
    (∀ v, fs.contents path = YamlParse.parsed v →
      _load_config fs path = ([], LoadOutcome.ok v)) := by
  constructor <;> intro x hx <;> simp [_load_config, hopen, hx]

/-- Witness for claim C7 on a concrete invalid-YAML file: the loader logs
the error line and re-raises the parse failure. -/
theorem claim_C7_witness :
    _load_config fsBadYaml "quota-export.yml" =
      ([LogMsg.mk LogLevel.error
          ("Error reading config file: " ++ "mapping values are not allowed here")],
       LoadOutcome.raisedParse "mapping values are not allowed here") :=
  (claim_C7 fsBadYaml "quota-export.yml" rfl).1 "mapping values are not allowed here" rfl

/-- Claim C8: when the WekaCluster constructor raises an SSL error, the
taken branch logs exactly the two TLS-mismatch critical lines plus the
error line and returns — neither the permission branch nor the generic
branch is taken; when it raises HTTP 403, the permission-specific critical
line is logged instead. -/
theorem claim_C8 :
    (∀ (env : Env) (c e : Value) (m : String),
      connectArgs c e = Except.ok PUnit.unit →
      env.connect = ConnectResult.sslError m →
      connectPhase env c e =
        ([LogMsg.mk LogLevel.critical
            "SSL Error: Only weka v3.10 and above support https, and force_https is set in config file.",
          LogMsg.mk LogLevel.critical
            "SSL Error: Is this cluster < v3.10? Please verify configuration",
          LogMsg.mk LogLevel.critical ("Error is " ++ m)],
         some (Outcome.returned none))) ∧
    (∀ (env : Env) (c e : Value) (m : String),
      connectArgs c e = Except.ok PUnit.unit →
      env.connect = ConnectResult.httpError 403 m →
      connectPhase env c e =
        ([LogMsg.mk LogLevel.critical
            "Cluster returned permission error - is the userid level ReadOnly or above?"],
         some (Outcome.returned none))) := by
  constructor <;> intro env c e m hargs hcn <;> simp [connectPhase, hargs, hcn]

/-- Witness for claim C8: a concrete SSL failure logs the TLS-specific
lines; a concrete 403 logs the permission line. -/
theorem claim_C8_witness :
    connectPhase envSsl clusterReady exporterReady =
      ([LogMsg.mk LogLevel.critical
          "SSL Error: Only weka v3.10 and above support https, and force_https is set in config file.",
        LogMsg.mk LogLevel.critical
          "SSL Error: Is this cluster < v3.10? Please verify configuration",
        LogMsg.mk LogLevel.critical ("Error is " ++ "handshake failure")],
       some (Outcome.returned none)) ∧
    connectPhase env403 clusterReady exporterReady =
      ([LogMsg.mk LogLevel.critical
          "Cluster returned permission error - is the userid level ReadOnly or above?"],
       some (Outcome.returned none)) :=
  ⟨claim_C8.1 envSsl clusterReady exporterReady "handshake failure" rfl rfl,
   claim_C8.2 env403 clusterReady exporterReady "403 Forbidden" rfl rfl⟩

/-- Claim C9: a configuration whose exporter stanza lacks listen_port
passes the resolution loop, both stanza checks and the defaulting (which
adds timeout, backends_only and exceeded_only but never listen_port), the
cluster handle and the collector are constructed, and the missing key only
surfaces as an uncaught KeyError when the f-string of the
"starting http server" info line reads exporter["listen_port"] — outside
any try, so nothing catches it: the logs are exactly the one Timeout line,
the collector was built but never registered, and the call ends raised. -/
theorem claim_C9 (env : Env) (config hosts0 : Value) (hl : List Value)
    (cm em : List (String × Value)) (tok : Value)
    (h1 : config.getItem "cluster" = Except.ok (Value.vMap cm))
    (h2 : (Value.vMap cm).getItem "hosts" = Except.ok hosts0)
    (h3 : hosts0.pyIter = Except.ok hl)
    (h4 : ∀ x ∈ hl, env.resolve x = ResolveResult.resolved)
    (h7 : config.getItem "exporter" = Except.ok (Value.vMap em))
    (hat : lookupKey cm "auth_token_file" = some tok)
    (hlp : lookupKey em "listen_port" = none)
    (hcn : env.connect = ConnectResult.connected) :
    prom_client env config =
      { logs := [LogMsg.mk LogLevel.info
          ("Timeout set to " ++ ((lookupKey em "timeout").getD (Value.vInt 10)).pyStr ++ " secs")],
        attempts := hl, collectorBuilt := true, registered := false,
        outcome := Outcome.raised (PyErr.keyError "listen_port") } := by
  have hh : lookupKey cm "hosts" = some hosts0 := lookup_of_getItem_vMap_ok h2
  rw [prom_client_run h1 h2 h3 h4 h7 (defaultCluster_vMap cm) (defaultExporter_vMap em)]
  have hti : (Value.vMap (exporterDefaultsMap em)).getItem "timeout" =
      Except.ok ((lookupKey em "timeout").getD (Value.vInt 10)) :=
    getItem_vMap_some (lookupKey_exporterDefaultsMap_timeout em)
  have hargs : connectArgs (Value.vMap (clusterDefaultsMap cm))
      (Value.vMap (exporterDefaultsMap em)) = Except.ok PUnit.unit := by
    simp [connectArgs, Bind.bind, Except.bind,
      getItem_vMap_some (lookupKey_clusterDefaultsMap_of_some cm hh),
      getItem_vMap_some (lookupKey_clusterDefaultsMap_of_some cm hat),
      getItem_vMap_some (lookupKey_clusterDefaultsMap_force_https cm),
      getItem_vMap_some (lookupKey_clusterDefaultsMap_verify_cert cm),
      getItem_vMap_some (lookupKey_clusterDefaultsMap_mgmt_port cm),
      getItem_vMap_some (lookupKey_exporterDefaultsMap_backends_only em),
      hti, pure, Except.pure]
  have hcp : connectPhase env (Value.vMap (clusterDefaultsMap cm))
      (Value.vMap (exporterDefaultsMap em)) = ([], none) := by
    simp [connectPhase, hargs, hcn]
  have hlp2 : lookupKey (exporterDefaultsMap em) "listen_port" = none := by
    rw [lookupKey_exporterDefaultsMap_other em (by decide) (by decide) (by decide)]
    exact hlp
  simp [runPhase, hti, hcp, getItem_vMap_none hlp2]

/-- Witness for claim C9 at a concrete configuration whose exporter stanza
has only timeout 5: validation passes, the collector is built, and the call
raises KeyError "listen_port" at the pre-try read, unregistered. -/
theorem claim_C9_witness :
    prom_client envOk cfgNoPort =
      { logs := [LogMsg.mk LogLevel.info
          ("Timeout set to " ++
            ((lookupKey [("timeout", Value.vInt 5)] "timeout").getD (Value.vInt 10)).pyStr
            ++ " secs")],
        attempts := [Value.vStr "goodhost"], collectorBuilt := true,
        registered := false,
        outcome := Outcome.raised (PyErr.keyError "listen_port") } :=
  claim_C9 envOk cfgNoPort _ _ _ _ _ rfl rfl rfl (fun _ _ => rfl) rfl rfl rfl rfl

/-- Claim C10: when the config file exists but _load_config fails (open
error or parse error), main logs the critical loading-error line and
returns normally, so the process exits with status 0 — unlike the
missing-file case, which is sys.exit(1). -/
theorem claim_C10 (fs : FileSystem) (env : Env) (p a0 : String) (args : Args)
    (hv : args.version = false) :
    (∀ m, fs.fileExists args.configfile = true →
      ((_load_config fs args.configfile).2 = LoadOutcome.raisedOpen m ∨
       (_load_config fs args.configfile).2 = LoadOutcome.raisedParse m) →
      (main fs env p a0 args).outcome = MainOutcome.returnedNormal ∧
      processExitStatus (main fs env p a0 args) = some 0 ∧
      LogMsg.mk LogLevel.critical
        ("Error loading config file \x27" ++ args.configfile ++ "\x27: " ++ m)
        ∈ (main fs env p a0 args).logs) ∧
    (fs.fileExists args.configfile = false →
      (main fs env p a0 args).outcome = MainOutcome.exitedEarly 1 ∧
      processExitStatus (main fs env p a0 args) = some 1) := by
  constructor
  · intro m hfe hload
    cases hlc : _load_config fs args.configfile with
    | mk llogs lo =>
      rw [hlc] at hload
      rcases hload with h | h <;> simp only at h <;> subst h <;>
        simp [main, hv, hfe, hlc, processExitStatus]
  · intro hfe
    constructor <;> simp [main, hv, hfe, processExitStatus]

/-- Witness for claim C10: a file that exists but cannot be opened makes
main return normally (exit status 0), while a missing file exits with 1. -/
theorem claim_C10_witness :
    (main fsUnreadable envOk "Linux" "prog" argsRun).outcome = MainOutcome.returnedNormal ∧
    processExitStatus (main fsUnreadable envOk "Linux" "prog" argsRun) = some 0 ∧
    (main fsMissing envOk "Linux" "prog" argsRun).outcome = MainOutcome.exitedEarly 1 ∧
    processExitStatus (main fsMissing envOk "Linux" "prog" argsRun) = some 1 := by
  have hu := (claim_C10 fsUnreadable envOk "Linux" "prog" argsRun rfl).1
    ("cannot open " ++ argsRun.configfile) rfl (Or.inl rfl)
  have hm := (claim_C10 fsMissing envOk "Linux" "prog" argsRun rfl).2 rfl
  exact ⟨hu.1, hu.2.1, hm.1, hm.2⟩

end QuotaExport
